import Mathlib

/-!
Verification development for the SIP relay server (`SIP_server`).

Shallow embedding of the signalling and media plane of the repository:
the RTP packet codec (`model/rtp.py`), the RTP sender and receiver loops
(`helper/rtp_handler.py`), the SDP offer/answer handling
(`helper/sip_session.py`), the control-channel command grammar
(`helper/ws_command.py`, `helper/ws_helper.py`) and the dialog-level
request/response handlers (`receive_server.py`).

Machine integers are modelled as `Nat`/`Int` with explicit bounds where the
Python `struct` module enforces wire widths; fallible Python code
(`raise ValueError` / `raise` inside `IntEnum.__call__` / `IndexError`)
is modelled with `Option`/`Except`.
-/

set_option maxHeartbeats 1000000

namespace SIPRelay

/-- `PayloadType` from `model/rtp.py`: an `IntEnum` with exactly two members,
`PCMU = 0` (G.711 mu-law) and `PCMA = 8` (G.711 A-law). -/
inductive PayloadType where
  | PCMU
  | PCMA
deriving DecidableEq, Repr

/-- The integer value of a `PayloadType` member. -/
def PayloadType.toNat : PayloadType → Nat
  | .PCMU => 0
  | .PCMA => 8

/-- `PayloadType(n)` in Python: the member whose value is `n`; any other `n`
raises `ValueError` (modelled as `none`). -/
def PayloadType.ofNat? (n : Nat) : Option PayloadType :=
  if n = 0 then some .PCMU else if n = 8 then some .PCMA else none

/-- `RTPPacket` from `model/rtp.py` (a `dataclass`); `payload` is a byte
string, modelled as a list of byte values. -/
structure RTPPacket where
  version : Nat := 2
  padding : Bool := false
  extension : Bool := false
  csrc_count : Nat := 0
  marker : Bool := false
  payload_type : PayloadType := .PCMA
  sequence : Nat := 0
  timestamp : Nat := 0
  ssrc : Nat := 0
  payload : List Nat := []
deriving DecidableEq, Repr

/-- Big-endian bytes of a 16-bit value, as produced by `struct.pack("!H", x)`
for `x < 2^16`. -/
def be16 (x : Nat) : List Nat := [x / 2 ^ 8, x % 2 ^ 8]

/-- Big-endian bytes of a 32-bit value, as produced by `struct.pack("!I", x)`
for `x < 2^32`. -/
def be32 (x : Nat) : List Nat :=
  [x / 2 ^ 24, x / 2 ^ 16 % 2 ^ 8, x / 2 ^ 8 % 2 ^ 8, x % 2 ^ 8]

/-- First header byte built by `RTPPacket.pack`:
`(version << 6) | (int(padding) << 5) | (int(extension) << 4) | csrc_count`. -/
def RTPPacket.b0 (p : RTPPacket) : Nat :=
  p.version <<< 6 ||| p.padding.toNat <<< 5 ||| p.extension.toNat <<< 4 ||| p.csrc_count

/-- Second header byte built by `RTPPacket.pack`:
`(int(marker) << 7) | payload_type`. -/
def RTPPacket.b1 (p : RTPPacket) : Nat :=
  p.marker.toNat <<< 7 ||| p.payload_type.toNat

/-- `RTPPacket.pack` from `model/rtp.py`: builds
`struct.pack("!BBHII", b0, b1, sequence, timestamp, ssrc) + payload`.
`struct.pack` raises `struct.error` when a field does not fit its wire
width, modelled as `none`. -/
def RTPPacket.pack (p : RTPPacket) : Option (List Nat) :=
  if p.b0 < 2 ^ 8 ∧ p.b1 < 2 ^ 8 ∧ p.sequence < 2 ^ 16 ∧
      p.timestamp < 2 ^ 32 ∧ p.ssrc < 2 ^ 32 then
    some ([p.b0, p.b1] ++ be16 p.sequence ++ be32 p.timestamp ++ be32 p.ssrc ++ p.payload)
  else none

/-- `RTPPacket.unpack` from `model/rtp.py`: requires at least 12 bytes
(`raise ValueError("RTP packet too short")` otherwise, modelled as `none`),
reads the header with `struct.unpack("!BBHII", data[:12])`, and builds the
packet.  `PayloadType(b1 & 0x7F)` raises `ValueError` for a value outside
`{0, 8}`, modelled through `PayloadType.ofNat?`.  The version bits are
decoded (`(b0 >> 6) & 0x3`) but never validated. -/
def RTPPacket.unpack (data : List Nat) : Option RTPPacket :=
  match data with
  | b0 :: b1 :: s1 :: s2 :: t1 :: t2 :: t3 :: t4 :: c1 :: c2 :: c3 :: c4 :: payload =>
    match PayloadType.ofNat? (b1 &&& 0x7F) with
    | none => none
    | some pt =>
      some {
        version := (b0 >>> 6) &&& 0x3
        padding := (b0 >>> 5) &&& 0x1 != 0
        extension := (b0 >>> 4) &&& 0x1 != 0
        csrc_count := b0 &&& 0xF
        marker := (b1 >>> 7) &&& 0x1 != 0
        payload_type := pt
        sequence := s1 * 2 ^ 8 + s2
        timestamp := t1 * 2 ^ 24 + t2 * 2 ^ 16 + t3 * 2 ^ 8 + t4
        ssrc := c1 * 2 ^ 24 + c2 * 2 ^ 16 + c3 * 2 ^ 8 + c4
        payload := payload }
  | _ => none

/-- `CommandType` from `model/ws_command.py`: a `StrEnum` with exactly these
eight members.  Note there is no `CALL_FAILED` member, although
`receive_server.py` refers to one. -/
inductive CommandType where
  | CALL
  | RTP
  | CALL_ANS
  | CALL_IGNORE
  | HANGUP
  | BYE
  | RING_ANS
  | RING_IGNORE
deriving DecidableEq, Repr

/-- `WebSocketCommand` from `model/ws_command.py`: a command tag with an
optional string content. -/
structure WebSocketCommand where
  type : CommandType
  content : Option String := none
deriving DecidableEq, Repr

/-- Observable actions of the server handlers: sending a datagram on the
wire, emitting a command on the WebSocket control channel, the actions of
`SIPRTPSession.stop_and_save` (stop the RTP threads, save the WAV, release
the port pair), and an uncaught Python exception propagating out of the
handler (logged by the listener loop). -/
inductive Effect where
  | sendWire (msg : String)
  | wsEmit (cmd : WebSocketCommand)
  | stopRtp
  | saveWav (path : String)
  | releasePorts (send_port recv_port : Nat)
  | pyError (msg : String)
deriving DecidableEq, Repr

/-- The silence payload named by the dead `except queue.Empty` fallback of
`RTPSender._send_loop` (`b"\xd5" * 160`) — the same byte for both codecs. -/
def silenceFrame : List Nat := List.replicate 160 0xD5

/-- One iteration of `RTPSender._send_loop` from `helper/rtp_handler.py`.
The loop body does `payload = self._send_queue.get()`: a **blocking** get
with no timeout, which never raises `queue.Empty`; the
`except queue.Empty: payload = b"\xd5" * 160` fallback is therefore dead
code, and an empty queue blocks the tick (modelled as `none`) instead of
producing a silence frame.  A non-empty queue yields exactly one dequeued
payload, wrapped with the running sequence number (incremented mod 2^16)
and timestamp (incremented by 160 mod 2^32).  There is no pause flag
anywhere in `RTPSender`. -/
def senderTick (codec : PayloadType) (sequence timestamp ssrc : Nat)
    (sendQueue : List (List Nat)) :
    Option (RTPPacket × List (List Nat) × Nat × Nat) :=
  match sendQueue with
  | [] => none
  | payload :: rest =>
    some ({ payload_type := codec, sequence := sequence, timestamp := timestamp,
            ssrc := ssrc, payload := payload },
          rest, (sequence + 1) &&& 0xFFFF, (timestamp + 160) &&& 0xFFFFFFFF)

/-- Statistics dictionary of `RTPReceiver` (`helper/rtp_handler.py`),
initialised to `{"total_packets": 0, "total_bytes": 0, "lost_packets": 0,
"last_sequence": -1}`. -/
structure RecvStats where
  total_packets : Nat := 0
  total_bytes : Nat := 0
  lost_packets : Int := 0
  last_sequence : Int := -1
deriving DecidableEq, Repr

/-- `RTPReceiver._update_stats`: counts packets and bytes and accumulates
sequence-gap based loss with 16-bit wraparound handling. -/
def updateStats (stats : RecvStats) (packet : RTPPacket) : RecvStats :=
  let s1 : RecvStats :=
    { stats with total_packets := stats.total_packets + 1,
                 total_bytes := stats.total_bytes + packet.payload.length }
  let s2 : RecvStats :=
    if s1.last_sequence ≥ 0 then
      let expected : Int := (s1.last_sequence + 1) % 65536
      if (packet.sequence : Int) ≠ expected then
        let lost : Int :=
          if (packet.sequence : Int) > expected then (packet.sequence : Int) - expected
          else (0xFFFF - expected) + (packet.sequence : Int) + 1
        { s1 with lost_packets := s1.lost_packets + lost }
      else s1
    else s1
  { s2 with last_sequence := (packet.sequence : Int) }

/-- Mutable state of `RTPReceiver`: the payload buffer used for WAV export,
the receive queue, and the statistics dictionary. -/
structure RecvState where
  recv_buffer : List (List Nat) := []
  recv_queue : List RTPPacket := []
  stats : RecvStats := {}
deriving DecidableEq, Repr

/-- Lowercase hex digit, as produced by `bytes.hex()`. -/
def hexDigit (n : Nat) : Char :=
  if n < 10 then Char.ofNat (48 + n) else Char.ofNat (87 + n)

/-- Two lowercase hex digits of one byte, as produced by `bytes.hex()`. -/
def byteHex (b : Nat) : String :=
  String.mk [hexDigit (b / 16 % 16), hexDigit (b % 16)]

/-- `payload.hex()`: lowercase hex of a byte string. -/
def bytesHex (l : List Nat) : String :=
  String.join (l.map byteHex)

/-- One iteration of `RTPReceiver._recv_loop` from `helper/rtp_handler.py`
for one received datagram.  `RTPPacket.unpack` raising `ValueError` is
caught (`"[RTP] parse error"` is logged) and the loop continues with no
other action: the datagram is dropped.  A parsed packet is appended to the
WAV buffer, published on the receive queue, counted in the statistics, and
forwarded as an `RTP:<pt>##<hex>` frame on the control channel. -/
def recvStep (st : RecvState) (data : List Nat) : RecvState × List Effect :=
  match RTPPacket.unpack data with
  | none => (st, [])
  | some packet =>
    let st2 : RecvState :=
      { st with recv_buffer := st.recv_buffer ++ [packet.payload],
                recv_queue := st.recv_queue ++ [packet],
                stats := updateStats st.stats packet }
    (st2, [.wsEmit { type := .RTP,
                     content := some (toString packet.payload_type.toNat ++ "##" ++
                       bytesHex packet.payload) }])

/-- Whether the list starts with the given pattern (used to model Python's
`str.startswith`). -/
def listStartsWith : List Char → List Char → Bool
  | _, [] => true
  | [], _ :: _ => false
  | a :: as, b :: bs => a = b && listStartsWith as bs

/-- Python `s.startswith(pre)`. -/
def pyStartsWith (s pre : String) : Bool :=
  listStartsWith s.data pre.data

/-- Split a character list at every character satisfying `p`, keeping empty
pieces (the behaviour of Python `str.split(sep)` for a one-character
separator, and the basis for `str.split()`). -/
def splitCharAux (p : Char → Bool) : List Char → List Char → List (List Char)
  | [], acc => [acc.reverse]
  | c :: rest, acc =>
    if p c then acc.reverse :: splitCharAux p rest []
    else splitCharAux p rest (c :: acc)

/-- Python `s.split(c)` for a one-character separator: keeps empty pieces. -/
def pySplitChar (c : Char) (s : String) : List String :=
  (splitCharAux (fun d => d = c) s.data []).map String.mk

/-- Python `s.split()` (no separator): split on whitespace runs and discard
empty pieces. -/
def pySplitWs (s : String) : List String :=
  ((splitCharAux Char.isWhitespace s.data []).map String.mk).filter (fun x => x ≠ "")

/-- `"\r\n".join`-style joining used by the SIP/SDP serializers. -/
def joinSep (sep : String) : List String → String
  | [] => ""
  | [x] => x
  | x :: xs => x ++ sep ++ joinSep sep xs

/-- Python `s.split(c, 1)` unpacked into exactly two names
(`a, b = s.split(c, 1)`): `none` models the `ValueError` raised when the
separator does not occur. -/
def pySplitOnce (c : Char) (s : String) : Option (String × String) :=
  match pySplitChar c s with
  | [] => none
  | [_] => none
  | x :: rest => some (x, joinSep (String.mk [c]) rest)

/-- Accumulator for a run of decimal digits. -/
def digitsAux (acc : Nat) : List Char → Option Nat
  | [] => some acc
  | c :: rest => if c.isDigit then digitsAux (acc * 10 + (c.toNat - 48)) rest else none

/-- A non-empty all-digit character run as a number. -/
def digitsToNat? : List Char → Option Nat
  | [] => none
  | l => digitsAux 0 l

/-- Strip leading and trailing whitespace (Python `str.strip()`). -/
def trimChars (l : List Char) : List Char :=
  ((l.dropWhile Char.isWhitespace).reverse.dropWhile Char.isWhitespace).reverse

/-- Python `int(s)`: optional surrounding whitespace, optional sign, decimal
digits; anything else raises `ValueError` (modelled as `none`).  (Python's
digit-grouping underscores are not modelled; no input here uses them.) -/
def pyInt? (s : String) : Option Int :=
  match trimChars s.data with
  | '-' :: rest => (digitsToNat? rest).map (fun n => -(n : Int))
  | '+' :: rest => (digitsToNat? rest).map (fun n => (n : Int))
  | l => (digitsToNat? l).map (fun n => (n : Int))

/-- The alternation of the control-frame regular expression in
`WSCommandHelper.__init__`
(`^(CALL|ANS|RING_ANS|RTP|CALL_ANS|CALL_IGNORE|HANGUP|BYE)(:[\w\W]+)?$`).
`RING_IGNORE` and `CALL_FAILED` are absent from the pattern. -/
def wsCommandTags : List String :=
  ["CALL", "ANS", "RING_ANS", "RTP", "CALL_ANS", "CALL_IGNORE", "HANGUP", "BYE"]

/-- Whether a frame matches the control-frame regular expression: one of the
tags, optionally followed by a colon and at least one further character. -/
def wsPatternMatches (msg : String) : Bool :=
  wsCommandTags.any (fun t =>
    msg == t || (pyStartsWith msg (t ++ ":") && msg.length > t.length + 1))

/-- The phone-number check of the `CALL:` branch
(`^\+?\d{7,15}$`): an optional leading `+`, then 7 to 15 digits. -/
def isPhoneNumber (s : String) : Bool :=
  let d := if pyStartsWith s "+" then String.mk (s.data.drop 1) else s
  d.data.all Char.isDigit && decide (7 ≤ d.length) && decide (d.length ≤ 15)

/-- `WSCommandHelper.parser` from `helper/ws_command.py`.  A frame that does
not match the regular expression, or that fails one of the `split(":")`
unpacks or the phone-number validation, raises (modelled as `.error`);
every raised message is propagated to the caller. -/
def parseWsMessage (message : String) : Except String WebSocketCommand :=
  if ¬ wsPatternMatches message then .error ("No command found " ++ message)
  else if pyStartsWith message "CALL:" then
    match pySplitChar ':' message with
    | [_, phone] =>
      if isPhoneNumber phone then .ok { type := .CALL, content := some phone }
      else .error ("Invalid phone number format: " ++ phone)
    | _ => .error "ValueError: unpack"
  else if pyStartsWith message "RTP:" then
    match pySplitChar ':' message with
    | [_, pkt] => .ok { type := .RTP, content := some pkt }
    | _ => .error "ValueError: unpack"
  else if pyStartsWith message "BYE" then
    match pySplitChar ':' message with
    | [_, info] => .ok { type := .BYE, content := some info }
    | _ => .error "ValueError: unpack"
  else if pyStartsWith message "CALL_ANS" then
    match pySplitChar ':' message with
    | [_, info] => .ok { type := .CALL_ANS, content := some info }
    | _ => .error "ValueError: unpack"
  else if pyStartsWith message "CALL_IGNORE" then
    match pySplitChar ':' message with
    | [_, info] => .ok { type := .CALL_IGNORE, content := some info }
    | _ => .error "ValueError: unpack"
  else if pyStartsWith message "HANGUP" then
    .ok { type := .HANGUP, content := none }
  else if pyStartsWith message "RING_ANS" then
    match pySplitChar ':' message with
    | [_, info] => .ok { type := .RING_ANS, content := some info }
    | _ => .error "ValueError: unpack"
  else if pyStartsWith message "RING_IGNORE" then
    match pySplitChar ':' message with
    | [_, info] => .ok { type := .RING_IGNORE, content := some info }
    | _ => .error "ValueError: unpack"
  else .error ("Invalid command " ++ message)

/-- `WebsocketServer.recv_loop` from `helper/ws_helper.py`, applied to the
frames arriving on one connection: the `try` block wraps the whole
`for message in websocket` loop, so the first frame whose parse raises
makes the loop log the error and return — later frames of the connection
are never processed.  The returned list is the sequence of commands put on
the receive queue. -/
def recvLoop : List String → List WebSocketCommand
  | [] => []
  | f :: rest =>
    match parseWsMessage f with
    | .ok c => c :: recvLoop rest
    | .error _ => []

/-- Python exception kinds raised by the embedded code paths.  The dialog
handlers catch `ValueError` specially (`488 Not Acceptable Here`), while
any other exception falls to the generic handler (`500` or the listener
log). -/
inductive PyErr where
  | valueError (msg : String)
  | indexError
  | attributeError (name : String)
  | runtimeError (msg : String)
  | osError (msg : String)
deriving DecidableEq, Repr

/-- Python truthiness of an `Optional[str]` field: `None` and `""` are
falsy. -/
def optTruthy (o : Option String) : Bool :=
  match o with
  | none => false
  | some s => s ≠ ""

/-- Python truthiness of an `Optional[list]` field: `None` and `[]` are
falsy. -/
def optListTruthy {α : Type} (o : Option (List α)) : Bool :=
  match o with
  | none => false
  | some l => ¬ l.isEmpty

/-- `TimeDescription` from `model/sip_message.py`. -/
structure TimeDescription where
  active_times : String
  repeat_times : Option (List String) := none
deriving DecidableEq, Repr

/-- `MediaDescription` from `model/sip_message.py`. -/
structure MediaDescription where
  media : String
  title : Option String := none
  connection_info : Option String := none
  bandwidth_info : Option (List String) := none
  encryption_key : Option String := none
  attributes : Option (List String) := none
deriving DecidableEq, Repr

/-- `SDPMessage` from `model/sip_message.py`. -/
structure SDPMessage where
  version : Int := 0
  origin : String
  session_name : String := "-"
  title : Option String := none
  uri : Option String := none
  email : Option (List String) := none
  phone : Option (List String) := none
  connection_info : Option String := none
  bandwidth_info : Option (List String) := none
  time_descriptions : List TimeDescription
  timezone_adjustments : Option String := none
  encryption_key : Option String := none
  attributes : Option (List String) := none
  media_descriptions : Option (List MediaDescription) := none
deriving DecidableEq, Repr

/-- `RTPSessionParams` from `helper/sip_session.py`: the RTP parameters
extracted from an SDP offer. -/
structure RTPSessionParams where
  remote_ip : String
  remote_port : Int
  payload_type : Int
  codec : String
  sample_rate : Int
deriving DecidableEq, Repr

/-- `RTPSessionParams._get_codec_name`: the RFC 3551 static payload-type
table; unknown values map to `"unknown"`. -/
def staticCodecName (payload_type : Int) : String :=
  if payload_type = 0 then "PCMU"
  else if payload_type = 3 then "GSM"
  else if payload_type = 4 then "G723"
  else if payload_type = 5 then "DVI4"
  else if payload_type = 6 then "DVI4"
  else if payload_type = 7 then "LPC"
  else if payload_type = 8 then "PCMA"
  else if payload_type = 9 then "G722"
  else if payload_type = 10 then "L16"
  else if payload_type = 11 then "L16"
  else if payload_type = 12 then "QCELP"
  else if payload_type = 13 then "CN"
  else if payload_type = 14 then "MPA"
  else if payload_type = 15 then "G728"
  else if payload_type = 16 then "DVI4"
  else if payload_type = 17 then "DVI4"
  else if payload_type = 18 then "G729"
  else "unknown"

/-- The rtpmap-attribute scan of `RTPSessionParams.from_sdp` (step 4): for
the first `rtpmap:` attribute whose payload type equals the negotiated
one, take its codec name and (when present) its sample rate, then stop;
non-matching `rtpmap:` attributes and other attributes are skipped.  The
`pt_str, codec_info = rtpmap_value.split(" ", 1)` unpack and the `int()`
conversions can raise `ValueError`. -/
def scanRtpmap (target : Int) (codec : String) (rate : Int) :
    List String → Except PyErr (String × Int)
  | [] => .ok (codec, rate)
  | attr :: rest =>
    if pyStartsWith attr "rtpmap:" then
      match pySplitOnce ':' attr with
      | none => .error .indexError
      | some (_, value) =>
        match pySplitOnce ' ' value with
        | none => .error (.valueError "not enough values to unpack")
        | some (ptStr, codecInfo) =>
          match pyInt? ptStr with
          | none => .error (.valueError "invalid literal for int()")
          | some n =>
            if n = target then
              let codec_parts := pySplitChar '/' codecInfo
              let c := (codec_parts.get? 0).getD ""
              if codec_parts.length > 1 then
                match pyInt? ((codec_parts.get? 1).getD "") with
                | none => .error (.valueError "invalid literal for int()")
                | some r => .ok (c, r)
              else .ok (c, rate)
            else scanRtpmap target codec rate rest
    else scanRtpmap target codec rate rest

/-- `RTPSessionParams.from_sdp` from `helper/sip_session.py`: extracts the
remote address and the **first** payload type of the offer's `m=` line
(`payload_type = int(media_parts[3])`) — there is no preference among the
offered payload types and no check that the type is supported.  A truthy
media-level `connection_info` overrides the session-level one; indexing
its third token can raise `IndexError` (not `ValueError`). -/
def RTPSessionParams.from_sdp (sdp : SDPMessage) : Except PyErr RTPSessionParams := do
  match sdp.media_descriptions with
  | none => throw (.valueError "No media descriptions in SDP")
  | some [] => throw (.valueError "No media descriptions in SDP")
  | some (audio_media :: _) =>
    let sdp_connection_info ←
      if optTruthy sdp.connection_info then pure (sdp.connection_info.getD "")
      else if optTruthy audio_media.connection_info then
        pure (audio_media.connection_info.getD "")
      else throw (.valueError "No connection_info in SDP")
    let conn_parts := pySplitWs sdp_connection_info
    if conn_parts.length < 3 then
      throw (.valueError ("Invalid connection_info: " ++ sdp_connection_info))
    let remote_ip0 := (conn_parts.get? 2).getD ""
    let remote_ip ←
      if optTruthy audio_media.connection_info then
        match (pySplitWs (audio_media.connection_info.getD "")).get? 2 with
        | none => throw PyErr.indexError
        | some ip => pure ip
      else pure remote_ip0
    let media_parts := pySplitWs audio_media.media
    if media_parts.length < 4 then
      throw (.valueError ("Invalid media line: " ++ audio_media.media))
    if (media_parts.get? 0).getD "" ≠ "audio" then
      throw (.valueError "Only audio media supported")
    let remote_port ←
      match pyInt? ((media_parts.get? 1).getD "") with
      | none => throw (PyErr.valueError "invalid literal for int()")
      | some n => pure n
    let payload_type ←
      match pyInt? ((media_parts.get? 3).getD "") with
      | none => throw (PyErr.valueError "invalid literal for int()")
      | some n => pure n
    let codec := staticCodecName payload_type
    let (codec, sample_rate) ←
      if optListTruthy audio_media.attributes then
        scanRtpmap payload_type codec 8000 (audio_media.attributes.getD [])
      else pure (codec, 8000)
    pure { remote_ip := remote_ip, remote_port := remote_port,
           payload_type := payload_type, codec := codec, sample_rate := sample_rate }

/-- Python `set.add` on a list-represented set. -/
def setAdd (l : List Nat) (x : Nat) : List Nat :=
  if x ∈ l then l else l ++ [x]

/-- Python `set.discard` on a list-represented set. -/
def setDiscard (l : List Nat) (x : Nat) : List Nat :=
  l.filter (fun y => y ≠ x)

/-- `RTPPortAllocator` from `helper/sip_session.py`, with its default range
`[31000, 31010)`.  Every `SIPSession.__init__` constructs a **fresh**
allocator (`self.rtp_port_allocator = RTPPortAllocator()`), so the
allocated set is per-session, not server-wide. -/
structure RTPPortAllocator where
  start_port : Nat := 31000
  end_port : Nat := 31010
  next_port : Nat := 31000
  allocated : List Nat := []
deriving DecidableEq, Repr

/-- The `while self.next_port < self.end_port` loop of
`RTPPortAllocator.allocate_pair`, with a fuel argument making the
recursion structural; the fuel supplied by `allocate_pair` exceeds the
maximal number of iterations, so the `0` case is never the reason for a
`none` result. -/
def allocLoop (endP : Nat) : Nat → Nat → List Nat → Nat × Option (List Nat × Nat × Nat)
  | 0, nextP, _ => (nextP, none)
  | fuel + 1, nextP, allocated =>
    if nextP < endP then
      let send_port := nextP
      let recv_port := nextP + 2
      let next := nextP + 4
      if send_port ∉ allocated ∧ recv_port ∉ allocated then
        (next, some (setAdd (setAdd allocated send_port) recv_port, send_port, recv_port))
      else allocLoop endP fuel next allocated
    else (nextP, none)

/-- `RTPPortAllocator.allocate_pair`: hands out `(next_port, next_port+2)`
skipping by 4, marking both ports allocated; exhaustion raises
`RuntimeError` (modelled as `none`, with the advanced `next_port`
preserved as in the source). -/
def RTPPortAllocator.allocate_pair (a : RTPPortAllocator) :
    RTPPortAllocator × Option (Nat × Nat) :=
  match allocLoop a.end_port (a.end_port - a.next_port + 1) a.next_port a.allocated with
  | (next, some (alloc, s, r)) =>
    ({ a with next_port := next, allocated := alloc }, some (s, r))
  | (next, none) => ({ a with next_port := next }, none)

/-- `RTPPortAllocator.release_pair`: discards both ports from the allocated
set. -/
def RTPPortAllocator.release_pair (a : RTPPortAllocator) (send_port recv_port : Nat) :
    RTPPortAllocator :=
  { a with allocated := setDiscard (setDiscard a.allocated send_port) recv_port }

/-- `SDPBuilder.build_answer` from `helper/sip_session.py`: mirrors the
offer's (first) payload type in the answer's `m=` line and `rtpmap`
attribute; `session_id` stands for the `random.randint` value. -/
def SDPBuilder.build_answer (local_ip : String) (local_recv_port : Nat)
    (offer_params : RTPSessionParams) (session_id : Nat) : SDPMessage :=
  let origin := "- " ++ toString session_id ++ " " ++ toString session_id ++
    " IN IP4 " ++ local_ip
  let pt := toString offer_params.payload_type
  let media_desc : MediaDescription :=
    { media := "audio " ++ toString local_recv_port ++ " RTP/AVP " ++ pt,
      attributes := some ["rtpmap:" ++ pt ++ " " ++ offer_params.codec ++ "/" ++
        toString offer_params.sample_rate] }
  { version := 0, origin := origin, session_name := "-",
    connection_info := some ("IN IP4 " ++ local_ip),
    time_descriptions := [{ active_times := "0 0" }],
    media_descriptions := some [media_desc] }

/-- The state of one `SIPRTPSession` (`helper/sip_session.py`).  The
`ack_sent` attribute mirrors `getattr(session, "ack_sent", False)` in
`receive_server.py`: no statement in the source ever assigns it, and no
definition in this file changes it either. -/
structure PySession where
  local_ip : String
  rtp_handle : Bool := false
  params : Option RTPSessionParams := none
  local_send_port : Option Nat := none
  local_recv_port : Option Nat := none
  rtp_port_allocator : RTPPortAllocator := {}
  ack_sent : Bool := false
deriving DecidableEq, Repr

/-- `SIPSession.handle_invite` from `helper/sip_session.py` (together with
the `SIPRTPSession` construction in `RelayServer._handle_invite`): extract
the offer parameters, allocate a port pair from the session's **fresh**
allocator, create the RTP handler, and build the SDP answer.  This
definition covers the clean-environment (first-dialog) case in which the
UDP bind inside `RTPHandler.__init__` succeeds because no live dialog
holds the port yet; `sessionHandleInviteBind` below adds that bind step
against the set of already-held ports, and the server-level `handleInvite`
goes through it. -/
def sessionHandleInvite (local_ip : String) (session_id : Nat)
    (sdp_offer : SDPMessage) : Except PyErr (PySession × SDPMessage) := do
  let params ← RTPSessionParams.from_sdp sdp_offer
  let a0 : RTPPortAllocator := {}
  match a0.allocate_pair with
  | (_, none) => throw (.runtimeError "No available ports in range")
  | (a1, some (send_port, recv_port)) =>
    pure ({ local_ip := local_ip, rtp_handle := true, params := some params,
            local_send_port := some send_port, local_recv_port := some recv_port,
            rtp_port_allocator := a1 },
          SDPBuilder.build_answer local_ip recv_port params session_id)

/-- `SIPSession.handle_invite` including the socket bind performed by
`RTPHandler.__init__` (`helper/rtp_handler.py`:
`sock.bind((local_ip, local_port))` with `local_port = local_send_port`).
When a live dialog already holds that port, the bind raises `OSError`
(`EADDRINUSE`) — which is **not** a `ValueError`, so `_handle_invite`'s
generic handler answers `500 Server Internal Error` and the session is
never registered.  `bound_ports` is the set of RTP ports currently bound
by live dialogs. -/
def sessionHandleInviteBind (local_ip : String) (session_id : Nat)
    (bound_ports : List Nat) (sdp_offer : SDPMessage) :
    Except PyErr (PySession × SDPMessage) := do
  let params ← RTPSessionParams.from_sdp sdp_offer
  let a0 : RTPPortAllocator := {}
  match a0.allocate_pair with
  | (_, none) => throw (.runtimeError "No available ports in range")
  | (a1, some (send_port, recv_port)) =>
    if send_port ∈ bound_ports then
      throw (.osError "[Errno 98] Address already in use")
    else
      pure ({ local_ip := local_ip, rtp_handle := true, params := some params,
              local_send_port := some send_port, local_recv_port := some recv_port,
              rtp_port_allocator := a1 },
            SDPBuilder.build_answer local_ip recv_port params session_id)

/-- `RelayServer._serialize_sdp` from `receive_server.py`: emits the
session-level lines, the `t=` lines, then for **every** media description
its `m=` line followed by the hardcoded attribute `a=rtpmap:0 PCMA/8000`
(the answer's real `rtpmap` attributes are ignored), and finally
`a=sendrecv`. -/
def serializeSdp (sdp : SDPMessage) : String :=
  let lines := ["v=" ++ toString sdp.version, "o=" ++ sdp.origin,
    "s=" ++ sdp.session_name]
  let lines := lines ++
    (if optTruthy sdp.connection_info then ["c=" ++ sdp.connection_info.getD ""] else [])
  let lines := lines ++ sdp.time_descriptions.map (fun td => "t=" ++ td.active_times)
  let lines := lines ++
    (if optListTruthy sdp.media_descriptions then
      ((sdp.media_descriptions.getD []).map
        (fun md => ["m=" ++ md.media, "a=rtpmap:0 PCMA/8000"])).flatten
    else [])
  let lines := lines ++ ["a=sendrecv"]
  joinSep "\r\n" lines ++ "\r\n"

/-- Replace the attributes of every media description (used to state that
the serializer never reads them). -/
def setMediaAttrs (sdp : SDPMessage) (f : MediaDescription → Option (List String)) :
    SDPMessage :=
  { sdp with media_descriptions :=
      sdp.media_descriptions.map (fun mds => mds.map (fun md => { md with attributes := f md })) }

/-- The SDP offer of scenario S1 of the specification:
`m=audio 4000 RTP/AVP 0 8 96` with `c=IN IP4 203.0.113.7`. -/
def offerS1 : SDPMessage :=
  { origin := "- 485 654 IN IP4 203.0.113.7",
    connection_info := some "IN IP4 203.0.113.7",
    time_descriptions := [{ active_times := "0 0" }],
    media_descriptions := some [{ media := "audio 4000 RTP/AVP 0 8 96" }] }

/-- An SDP offer proposing only the dynamic payload type 96 (neither PCMA
nor PCMU). -/
def offerPt96 : SDPMessage :=
  { origin := "- 485 654 IN IP4 203.0.113.7",
    connection_info := some "IN IP4 203.0.113.7",
    time_descriptions := [{ active_times := "0 0" }],
    media_descriptions := some
      [{ media := "audio 4000 RTP/AVP 96",
         attributes := some ["rtpmap:96 opus/48000"] }] }

/-- The header subset of `SIPHeaders` (`model/sip_message.py`) used by the
dialog handlers; absent headers are `None`. -/
structure SIPHeaders where
  via : Option String := none
  call_id : Option String := none
  from_ : Option String := none
  to_ : Option String := none
  cseq : Option String := none
  content_type : Option String := none
  content_length : Option Int := none
deriving DecidableEq, Repr

/-- A SIP message body: either a raw string or a parsed `SDPMessage`
(`body: str | SDPMessage`). -/
inductive SIPBody where
  | raw (s : String)
  | sdp (m : SDPMessage)
deriving DecidableEq, Repr

/-- Python truthiness of `msg.body`: the empty string is falsy, a parsed
SDP model instance is truthy. -/
def bodyTruthy : SIPBody → Bool
  | .raw s => s ≠ ""
  | .sdp _ => true

/-- `SIPStatusLine` from `model/sip_message.py`. -/
structure SIPStatusLine where
  version : String := "SIP/2.0"
  status_code : Int
  reason_phrase : String
deriving DecidableEq, Repr

/-- `SIPResponse` from `model/sip_message.py`. -/
structure SIPResponse where
  status_line : SIPStatusLine
  headers : SIPHeaders
  body : SIPBody := .raw ""
deriving DecidableEq, Repr

/-- An `Optional[str]` in a Python f-string: `None` prints as `"None"`. -/
def fmtOpt : Option String → String
  | none => "None"
  | some s => s

/-- The constructor arguments of `RelayServer.__init__`
(`receive_server.py`) with their defaults. -/
structure ServerCfg where
  host : String := "192.168.1.101"
  transf_port : Nat := 5060
  recv_port : Nat := 5062
  local_ip : String := "192.168.1.101"
  sip_server_ip : String := "192.168.1.170"
deriving DecidableEq, Repr

/-- The mutable dialog table of `RelayServer`
(`self.sessions: dict[str, SIPRTPSession]`), as an insertion-ordered
association list. -/
structure ServerState where
  sessions : List (String × PySession) := []
deriving DecidableEq, Repr

/-- `RelayServer._build_response`: a minimal response echoing Via, From,
To, Call-ID and CSeq from the given message and ending with
`Content-Length: 0` and a blank line. -/
def buildResponse (headers : SIPHeaders) (status : String) : String :=
  joinSep "\r\n"
    ["SIP/2.0 " ++ status,
     "Via: " ++ fmtOpt headers.via,
     "From: " ++ fmtOpt headers.from_,
     "To: " ++ fmtOpt headers.to_,
     "Call-ID: " ++ fmtOpt headers.call_id,
     "CSeq: " ++ fmtOpt headers.cseq,
     "Content-Length: 0",
     "",
     ""]

/-- `RelayServer._build_ok_response`: the 200 OK carrying the serialized
SDP answer, a `Contact` header and the body's `Content-Length`. -/
def buildOkResponse (cfg : ServerCfg) (headers : SIPHeaders)
    (sdp_answer : SDPMessage) : String :=
  let sdp_body := serializeSdp sdp_answer
  joinSep "\r\n"
    ["SIP/2.0 200 OK",
     "Via: " ++ fmtOpt headers.via,
     "From: " ++ fmtOpt headers.from_,
     "To: " ++ fmtOpt headers.to_,
     "Call-ID: " ++ fmtOpt headers.call_id,
     "CSeq: " ++ fmtOpt headers.cseq,
     "Contact: <sip:" ++ cfg.local_ip ++ ":" ++ toString cfg.recv_port ++ ">",
     "Content-Type: application/sdp",
     "Content-Length: " ++ toString sdp_body.length,
     "",
     sdp_body]

/-- `SIPRTPSession.stop_and_save` (`helper/sip_session.py`): a session with
no RTP handler returns immediately; otherwise it stops the RTP threads,
saves the WAV when a path is given, and releases the port pair when both
ports are set (and non-zero, by Python truthiness). -/
def stopAndSave (session : PySession) (output_path : Option String) : List Effect :=
  if ¬ session.rtp_handle then []
  else
    [Effect.stopRtp] ++
    (match output_path with
     | some p => [Effect.saveWav p]
     | none => []) ++
    (match session.local_send_port, session.local_recv_port with
     | some s, some r => if s ≠ 0 ∧ r ≠ 0 then [Effect.releasePorts s r] else []
     | _, _ => [])

/-- The RTP ports held bound by live dialogs: each session with an RTP
handler keeps its single UDP socket bound at its `local_send_port`
(`RTPHandler.__init__` binds once, at `local_port = local_send_port`;
outbound sessions created by `_handle_call` construct no handler and bind
nothing). -/
def boundPorts (st : ServerState) : List Nat :=
  st.sessions.filterMap (fun p => if p.2.rtp_handle then p.2.local_send_port else none)

/-- `RelayServer._handle_invite`: 488 for a Call-ID already in the table,
400 for a missing body, 488 for a raw (non-SDP) body or a `ValueError`
during session setup, 500 for any other exception — including the
`OSError` raised when the RTP handler's bind hits a port a live dialog
already holds; on success the session is registered, the 200 OK is sent,
and `RING_ANS:<caller>` is emitted when the From header is truthy (its
first space-separated token with `"` removed). -/
def handleInvite (cfg : ServerCfg) (st : ServerState) (headers : SIPHeaders)
    (body : SIPBody) (call_id : String) (session_id : Nat) :
    ServerState × List Effect :=
  if (st.sessions.lookup call_id).isSome then
    (st, [.sendWire (buildResponse headers "488 Not Acceptable Here")])
  else if ¬ bodyTruthy body then
    (st, [.sendWire (buildResponse headers "400 Bad Request")])
  else
    match body with
    | .raw _ => (st, [.sendWire (buildResponse headers "488 Not Acceptable Here")])
    | .sdp sdp_offer =>
      match sessionHandleInviteBind cfg.local_ip session_id (boundPorts st) sdp_offer with
      | .error (.valueError _) =>
        (st, [.sendWire (buildResponse headers "488 Not Acceptable Here")])
      | .error _ =>
        (st, [.sendWire (buildResponse headers "500 Server Internal Error")])
      | .ok (session, sdp_answer) =>
        let st2 : ServerState :=
          { st with sessions := st.sessions ++ [(call_id, session)] }
        let eff0 := [Effect.sendWire (buildOkResponse cfg headers sdp_answer)]
        if ¬ optTruthy headers.from_ then (st2, eff0)
        else
          let phone := String.mk
            ((((pySplitChar ' ' (headers.from_.getD "")).headD "").data).filter
              (fun c => c ≠ '"'))
          (st2, eff0 ++ [.wsEmit { type := .RING_ANS, content := some phone }])

/-- `RelayServer._handle_bye`: an unknown Call-ID is answered `200 OK` with
no other action; a known one is stopped and saved to
`./recording/<timestamp>_<first-8-of-callid>.wav`, removed from the table,
answered `200 OK`, and a `BYE` event is emitted. -/
def handleBye (st : ServerState) (headers : SIPHeaders) (call_id : String)
    (timestamp : String) : ServerState × List Effect :=
  match st.sessions.lookup call_id with
  | none => (st, [.sendWire (buildResponse headers "200 OK")])
  | some session =>
    let filename := timestamp ++ "_" ++ String.mk (call_id.data.take 8) ++ ".wav"
    let output_path := "./recording/" ++ filename
    ({ st with sessions := st.sessions.filter (fun p => p.1 ≠ call_id) },
     stopAndSave session (some output_path) ++
       [.sendWire (buildResponse headers "200 OK"),
        .wsEmit { type := .BYE, content := none }])

/-- Python `needle in hay` on strings. -/
def strContains (hay needle : String) : Bool :=
  (List.range (hay.data.length + 1)).any
    (fun i => listStartsWith (hay.data.drop i) needle.data)

/-- The ACK request built inside `RelayServer._handle_send_ack`; `branch`
stands for the `uuid4` fragment. -/
def buildAckMessage (cfg : ServerCfg) (headers : SIPHeaders) (addr : String × Nat)
    (call_id cseq_number branch : String) : String :=
  let ack_uri := "sip:" ++ addr.1 ++ ":" ++ toString addr.2
  joinSep "\r\n"
    ["ACK " ++ ack_uri ++ " SIP/2.0",
     "Via: SIP/2.0/UDP " ++ cfg.local_ip ++ ":" ++ toString cfg.recv_port ++
       ";branch=z9hG4bK-" ++ branch,
     "From: " ++ fmtOpt headers.from_,
     "To: " ++ fmtOpt headers.to_,
     "Call-ID: " ++ call_id,
     "CSeq: " ++ cseq_number ++ " ACK",
     "Max-Forwards: 70",
     "Content-Length: 0",
     "",
     ""]

/-- `RelayServer._handle_send_ack`: guarded by
`getattr(session, "ack_sent", False)` — an attribute that **no statement
in the source ever assigns**, so the guard is always `False` for the
`SIPRTPSession` objects stored in the table.  With an SDP body the handler
sends the ACK, emits `CALL_ANS`, and then calls
`session.create_rtp_handler(...)`, a method `SIPRTPSession` does not
define: the `AttributeError` aborts the handler before any media state is
touched, leaving `ack_sent` untouched (still absent/false).  A non-SDP
body is routed to `_handle_bye`. -/
def handleSendAck (cfg : ServerCfg) (st : ServerState) (session : PySession)
    (resp : SIPResponse) (addr : String × Nat) (branch timestamp : String) :
    ServerState × List Effect :=
  if ¬ optTruthy resp.headers.call_id then (st, [.pyError "ValueError: No call-id"])
  else
    let call_id := resp.headers.call_id.getD ""
    if ¬ optTruthy resp.headers.cseq then (st, [.pyError "ValueError: No CSeq"])
    else
      let cseq_header := resp.headers.cseq.getD ""
      match (pySplitWs cseq_header).head? with
      | none => (st, [.pyError "IndexError: list index out of range"])
      | some cseq_number =>
        if session.ack_sent then (st, [])
        else
          match resp.body with
          | .raw _ => handleBye st resp.headers call_id timestamp
          | .sdp _ =>
            (st, [.sendWire (buildAckMessage cfg resp.headers addr call_id
                    cseq_number branch),
                  .wsEmit { type := .CALL_ANS, content := none },
                  .pyError "AttributeError: create_rtp_handler"])

/-- `RelayServer._handle_response`: routes by status code.  `180` emits
`CALL_IGNORE:<call-id>`; `200` with `INVITE` in the CSeq goes to
`_handle_send_ack`, with `BYE` it deletes the dialog; `300 ≤ code < 700`
sends a `603 Decline` built from the response's own headers, deletes the
dialog, and then evaluates `CommandType.CALL_FAILED` — a member the
`CommandType` enum does not have, so an `AttributeError` aborts the
handler and **no** event reaches the control channel; the dialog's port
pair is never released on this path (the `stop_and_save` call is
commented out in the source). -/
def handleResponse (cfg : ServerCfg) (st : ServerState) (resp : SIPResponse)
    (addr : String × Nat) (branch timestamp : String) : ServerState × List Effect :=
  let status_code := resp.status_line.status_code
  if ¬ optTruthy resp.headers.call_id then (st, [])
  else
    let call_id := resp.headers.call_id.getD ""
    match st.sessions.lookup call_id with
    | none => (st, [])
    | some session =>
      if ¬ optTruthy resp.headers.cseq then (st, [.pyError "ValueError: No cseq"])
      else
        let cseq := resp.headers.cseq.getD ""
        if 100 ≤ status_code ∧ status_code < 200 then
          if status_code = 180 then
            (st, [.wsEmit { type := .CALL_IGNORE, content := some call_id }])
          else (st, [])
        else if status_code = 200 then
          if strContains cseq "INVITE" then
            handleSendAck cfg st session resp addr branch timestamp
          else if strContains cseq "BYE" then
            ({ st with sessions := st.sessions.filter (fun p => p.1 ≠ call_id) }, [])
          else (st, [])
        else if 300 ≤ status_code ∧ status_code < 700 then
          ({ st with sessions := st.sessions.filter (fun p => p.1 ≠ call_id) },
           [.sendWire (buildResponse resp.headers "603 Decline"),
            .pyError "AttributeError: CALL_FAILED"])
        else (st, [])

/-- `RelayServer._build_sdp_offer`: the outbound SDP offer for a given RTP
port; `sdp_session_id` stands for `int(time.time())`. -/
def buildSdpOffer (cfg : ServerCfg) (sdp_session_id : Nat) (rtp_port : Nat) : String :=
  joinSep "\r\n"
    ["v=0",
     "o=relay " ++ toString sdp_session_id ++ " " ++ toString sdp_session_id ++
       " IN IP4 " ++ cfg.local_ip,
     "s=Call",
     "c=IN IP4 " ++ cfg.local_ip,
     "t=0 0",
     "m=audio " ++ toString rtp_port ++ " RTP/AVP 0 8 101",
     "a=rtpmap:8 PCMA/8000",
     "a=rtpmap:101 telephone-event/8000",
     "a=fmtp:101 0-16",
     "a=sendrecv"] ++ "\r\n"

/-- `RelayServer._build_invite_message`; `from_tag` and `branch` stand for
the `uuid4` fragments. -/
def buildInviteMessage (cfg : ServerCfg) (phone_number call_id from_tag branch : String)
    (sdp_session_id : Nat) (recv_port : Nat) : String :=
  let to_uri := "sip:" ++ phone_number ++ "@" ++ cfg.sip_server_ip
  let from_uri := "sip:" ++ cfg.local_ip ++ ":" ++ toString cfg.recv_port
  let sdp := buildSdpOffer cfg sdp_session_id recv_port
  joinSep "\r\n"
    ["INVITE " ++ to_uri ++ " SIP/2.0",
     "Via: SIP/2.0/UDP " ++ cfg.local_ip ++ ":" ++ toString cfg.recv_port ++
       ";branch=z9hG4bK-" ++ branch,
     "From: <" ++ from_uri ++ ">;tag=" ++ from_tag,
     "To: <" ++ to_uri ++ ">",
     "Call-ID: " ++ call_id,
     "CSeq: 1 INVITE",
     "Contact: <sip:" ++ cfg.local_ip ++ ":" ++ toString cfg.recv_port ++ ">",
     "Max-Forwards: 70",
     "User-Agent: SIP-Relay-Server/1.0",
     "Content-Type: application/sdp",
     "Content-Length: " ++ toString sdp.length,
     "",
     sdp]

/-- `RelayServer._handle_call`: allocates a pair from a fresh session's
allocator, then sets **both** `local_send_port` and `local_recv_port` to
`recv_port` (as the source does), sends the INVITE, and only then
registers the session under the freshly generated Call-ID. -/
def handleCall (cfg : ServerCfg) (st : ServerState)
    (phone_number call_id from_tag branch : String) (sdp_session_id : Nat) :
    ServerState × List Effect :=
  let a0 : RTPPortAllocator := {}
  match a0.allocate_pair with
  | (_, none) => (st, [])
  | (a1, some (_, recv_port)) =>
    let session : PySession :=
      { local_ip := cfg.local_ip, rtp_port_allocator := a1,
        local_send_port := some recv_port, local_recv_port := some recv_port }
    let invite := buildInviteMessage cfg phone_number call_id from_tag branch
      sdp_session_id recv_port
    ({ st with sessions := st.sessions ++ [(call_id, session)] },
     [.sendWire invite])

/-- Number of ACK requests among a list of wire effects. -/
def countAcks (effs : List Effect) : Nat :=
  (effs.filter (fun e =>
    match e with
    | .sendWire m => pyStartsWith m "ACK "
    | _ => false)).length

/-- Default server configuration, as in `RelayServer()`. -/
def cfg0 : ServerCfg := {}

/-- Request headers of a representative inbound INVITE (first dialog). -/
def hdrsA : SIPHeaders :=
  { via := some "SIP/2.0/UDP 192.168.1.170:5060;branch=z9hG4bKPjyCB22Z",
    call_id := some "call-1",
    from_ := some "\"0903383638\" <sip:0903383638@192.168.1.170>;tag=eTQzZsIF",
    to_ := some "sip:192.168.157.126",
    cseq := some "26086 INVITE" }

/-- Request headers of a second inbound INVITE (distinct Call-ID). -/
def hdrsB : SIPHeaders :=
  { via := some "SIP/2.0/UDP 192.168.1.171:5060;branch=z9hG4bKPjxyz",
    call_id := some "call-2",
    from_ := some "\"0903383639\" <sip:0903383639@192.168.1.171>;tag=aQzZsIF",
    to_ := some "sip:192.168.157.126",
    cseq := some "11 INVITE" }

/-- A `486 Busy Here` final response for the outbound Call-ID `out-1`. -/
def resp486 : SIPResponse :=
  { status_line := { status_code := 486, reason_phrase := "Busy Here" },
    headers := { via := some "SIP/2.0/UDP 192.168.1.101:5062",
                 from_ := some "<sip:192.168.1.101:5062>;tag=deadbeef",
                 to_ := some "<sip:0987654321@192.168.1.170>;tag=as58f42",
                 call_id := some "out-1",
                 cseq := some "1 INVITE" },
    body := .raw "" }

/-- The SDP answer carried by the peer's 200 OK to the outbound INVITE. -/
def answer200 : SDPMessage :=
  { origin := "- 99 99 IN IP4 192.168.1.170",
    connection_info := some "IN IP4 192.168.1.170",
    time_descriptions := [{ active_times := "0 0" }],
    media_descriptions := some [{ media := "audio 4000 RTP/AVP 0" }] }

/-- The peer's 200 OK (with SDP) to the outbound INVITE `out-1`. -/
def resp200out : SIPResponse :=
  { status_line := { status_code := 200, reason_phrase := "OK" },
    headers := { via := some "SIP/2.0/UDP 192.168.1.101:5062",
                 from_ := some "<sip:192.168.1.101:5062>;tag=deadbeef",
                 to_ := some "<sip:0987654321@192.168.1.170>;tag=as58f42",
                 call_id := some "out-1",
                 cseq := some "1 INVITE" },
    body := .sdp answer200 }

/-- The session registered by `_handle_call`: a fresh allocator that has
handed out `(31000, 31002)`, with **both** local ports set to the receive
port 31002 (as the source assigns), and no RTP handler. -/
def outboundSession : PySession :=
  { local_ip := "192.168.1.101",
    rtp_port_allocator := { start_port := 31000, end_port := 31010,
                            next_port := 31004, allocated := [31000, 31002] },
    local_send_port := some 31002, local_recv_port := some 31002 }

lemma PayloadType.ofNat?_toNat (pt : PayloadType) : PayloadType.ofNat? pt.toNat = some pt := by
  cases pt <;> rfl

lemma PayloadType.toNat_lt (pt : PayloadType) : pt.toNat < 2 ^ 7 := by
  cases pt <;> decide

/-- Packing and re-extracting the first header byte recovers every field,
provided the flag bits are 0/1 and the CSRC count fits in 4 bits. -/
lemma b0_fields (x y c : Nat) (hx : x ≤ 1) (hy : y ≤ 1) (hc : c < 16) :
    2 <<< 6 ||| x <<< 5 ||| y <<< 4 ||| c = 128 + 32 * x + 16 * y + c ∧
    ((128 + 32 * x + 16 * y + c) >>> 6) &&& 0x3 = 2 ∧
    ((128 + 32 * x + 16 * y + c) >>> 5) &&& 0x1 = x ∧
    ((128 + 32 * x + 16 * y + c) >>> 4) &&& 0x1 = y ∧
    (128 + 32 * x + 16 * y + c) &&& 0xF = c := by
  interval_cases x <;> interval_cases y <;> interval_cases c <;> decide

/-- Packing and re-extracting the second header byte recovers the marker bit
and the payload-type bits, for payload types 0 and 8. -/
lemma b1_fields (m v : Nat) (hm : m ≤ 1) (hv : v = 0 ∨ v = 8) :
    (m <<< 7 ||| v) &&& 0x7F = v ∧
    ((m <<< 7 ||| v) >>> 7) &&& 0x1 = m ∧
    m <<< 7 ||| v < 2 ^ 8 := by
  rcases hv with rfl | rfl <;> interval_cases m <;> decide

lemma bool_toNat_le_one (b : Bool) : b.toNat ≤ 1 := by cases b <;> decide

lemma bool_toNat_ne_zero (b : Bool) : (b.toNat != 0) = b := by cases b <;> rfl

lemma payloadType_toNat_cases (pt : PayloadType) : pt.toNat = 0 ∨ pt.toNat = 8 := by
  cases pt <;> simp [PayloadType.toNat]

/-- C9: for every `RTPPacket` with version 2 whose fields fit their wire
widths and whose payload is at most 1452 bytes, `unpack (pack P)` returns
`P` field for field. -/
theorem C9_unpack_pack_roundtrip (p : RTPPacket) (hv : p.version = 2)
    (hc : p.csrc_count < 16) (hs : p.sequence < 2 ^ 16) (ht : p.timestamp < 2 ^ 32)
    (hr : p.ssrc < 2 ^ 32) (hl : p.payload.length ≤ 1452) :
    p.pack.bind RTPPacket.unpack = some p := by
  obtain ⟨v, pad, ext, cc, mk, pt, seq, ts, ssrc, pl⟩ := p
  simp only [RTPPacket.version] at hv
  simp only [RTPPacket.csrc_count] at hc
  simp only [RTPPacket.sequence] at hs
  simp only [RTPPacket.timestamp] at ht
  simp only [RTPPacket.ssrc] at hr
  subst hv
  obtain ⟨hb0eq, hver, hpad, hext, hcsrc⟩ :=
    b0_fields pad.toNat ext.toNat cc (bool_toNat_le_one pad) (bool_toNat_le_one ext) hc
  obtain ⟨hptbits, hmk, hb1lt⟩ :=
    b1_fields mk.toNat pt.toNat (bool_toNat_le_one mk) (payloadType_toNat_cases pt)
  have hple := bool_toNat_le_one pad
  have hele := bool_toNat_le_one ext
  simp only [RTPPacket.pack, RTPPacket.b0, RTPPacket.b1]
  rw [hb0eq]
  rw [if_pos ⟨by omega, hb1lt, hs, ht, hr⟩]
  simp only [be16, be32, List.cons_append, List.nil_append, Option.some_bind]
  simp only [RTPPacket.unpack]
  rw [hptbits, PayloadType.ofNat?_toNat]
  simp only [Option.some.injEq, RTPPacket.mk.injEq]
  refine ⟨hver, ?_, ?_, hcsrc, ?_, trivial, by omega, by omega, by omega, trivial⟩
  · rw [hpad]; exact bool_toNat_ne_zero pad
  · rw [hext]; exact bool_toNat_ne_zero ext
  · rw [hmk]; exact bool_toNat_ne_zero mk

/-- Witness for C9 at a concrete packet. -/
theorem C9_unpack_pack_roundtrip_witness :
    ({ version := 2, padding := true, extension := false, csrc_count := 3,
       marker := true, payload_type := .PCMA, sequence := 65535,
       timestamp := 4000000000, ssrc := 305419896,
       payload := [1, 2, 3] } : RTPPacket).pack.bind RTPPacket.unpack =
      some { version := 2, padding := true, extension := false, csrc_count := 3,
             marker := true, payload_type := .PCMA, sequence := 65535,
             timestamp := 4000000000, ssrc := 305419896, payload := [1, 2, 3] } :=
  C9_unpack_pack_roundtrip _ rfl (by decide) (by decide) (by decide) (by decide)
    (by decide)

/-- C7 counterexample: a 12-byte datagram whose version bits are 0 (first
byte 0) is accepted by `unpack` rather than rejected: the version bits are
decoded but never compared with 2. -/
theorem C7_version_not_checked :
    RTPPacket.unpack [0, 8, 0, 0, 0, 0, 0, 0, 0, 0, 0, 0] =
      some { version := 0, padding := false, extension := false, csrc_count := 0,
             marker := false, payload_type := .PCMA, sequence := 0,
             timestamp := 0, ssrc := 0, payload := [] } := by
  decide

/-- C7 (amended): `unpack` rejects exactly the datagrams shorter than
12 bytes and those whose payload-type bits (second byte masked with 0x7F)
are neither 0 nor 8; the version bits of the first byte are decoded but
never validated, so acceptance does not depend on them. -/
theorem C7_unpack_acceptance :
    (∀ d : List Nat, d.length < 12 → RTPPacket.unpack d = none) ∧
    (∀ b0 b1 s1 s2 t1 t2 t3 t4 c1 c2 c3 c4 : Nat, ∀ tl : List Nat,
      (RTPPacket.unpack
          (b0 :: b1 :: s1 :: s2 :: t1 :: t2 :: t3 :: t4 ::
            c1 :: c2 :: c3 :: c4 :: tl)).isSome =
        (b1 &&& 0x7F == 0 || b1 &&& 0x7F == 8)) := by
  constructor
  · intro d h
    rcases d with _ | ⟨b0, d⟩; · rfl
    rcases d with _ | ⟨b1, d⟩; · rfl
    rcases d with _ | ⟨s1, d⟩; · rfl
    rcases d with _ | ⟨s2, d⟩; · rfl
    rcases d with _ | ⟨t1, d⟩; · rfl
    rcases d with _ | ⟨t2, d⟩; · rfl
    rcases d with _ | ⟨t3, d⟩; · rfl
    rcases d with _ | ⟨t4, d⟩; · rfl
    rcases d with _ | ⟨c1, d⟩; · rfl
    rcases d with _ | ⟨c2, d⟩; · rfl
    rcases d with _ | ⟨c3, d⟩; · rfl
    rcases d with _ | ⟨c4, d⟩; · rfl
    simp only [List.length_cons] at h
    omega
  · intro b0 b1 s1 s2 t1 t2 t3 t4 c1 c2 c3 c4 tl
    simp only [RTPPacket.unpack, PayloadType.ofNat?]
    by_cases h0 : b1 &&& 0x7F = 0
    · simp [h0]
    · by_cases h8 : b1 &&& 0x7F = 8 <;> simp [h0, h8]

/-- Witness for C7 (amended): both conjuncts evaluated at concrete inputs. -/
theorem C7_unpack_acceptance_witness :
    RTPPacket.unpack [1, 2, 3] = none ∧
    (RTPPacket.unpack [0, 77, 0, 0, 0, 0, 0, 0, 0, 0, 0, 0]).isSome =
      (77 &&& 0x7F == 0 || 77 &&& 0x7F == 8) :=
  ⟨C7_unpack_acceptance.1 [1, 2, 3] (by decide),
   C7_unpack_acceptance.2 0 77 0 0 0 0 0 0 0 0 0 0 []⟩

/-- C6 counterexample: on a tick where the send queue is empty, the sender
produces no packet at all — for either codec — because
`self._send_queue.get()` blocks; in particular no silence frame (neither
`0xD5` nor `0xFF` filled) is emitted. -/
theorem C6_empty_queue_blocks :
    senderTick .PCMA 0 0 0 [] = none ∧ senderTick .PCMU 0 0 0 [] = none :=
  ⟨rfl, rfl⟩

/-- C6 (amended): on every tick the sender performs a blocking dequeue:
an empty queue blocks the tick (no frame of any kind is emitted — the
`0xd5` silence fallback is dead code and there is no pause flag), and a
non-empty queue yields exactly one dequeued payload with the advanced
sequence number and timestamp. -/
theorem C6_sender_tick_dequeues_one (codec : PayloadType) (seq ts ssrc : Nat) :
    senderTick codec seq ts ssrc [] = none ∧
    ∀ (p : List Nat) (rest : List (List Nat)),
      senderTick codec seq ts ssrc (p :: rest) =
        some ({ payload_type := codec, sequence := seq, timestamp := ts,
                ssrc := ssrc, payload := p },
              rest, (seq + 1) &&& 0xFFFF, (ts + 160) &&& 0xFFFFFFFF) :=
  ⟨rfl, fun _ _ => rfl⟩

/-- C8 counterexample: a well-formed 12-byte RTP datagram with version 2 and
payload-type byte 5 (neither PCMU 0 nor PCMA 8) is not accepted: `unpack`
raises `ValueError` inside `PayloadType(...)`, and the receiver loop drops
the datagram — nothing is buffered, counted, or forwarded. -/
theorem C8_unknown_payload_type_dropped :
    RTPPacket.unpack [128, 5, 0, 0, 0, 0, 0, 0, 0, 0, 0, 0] = none ∧
    recvStep {} [128, 5, 0, 0, 0, 0, 0, 0, 0, 0, 0, 0] = ({}, []) := by
  constructor <;> rfl

/-- C8 (amended): every incoming RTP datagram whose payload-type bits
(second byte masked with 0x7F) are neither 0 nor 8 fails `unpack` with
`ValueError` and is dropped by the receiver loop: the receiver state
(buffer, queue, statistics) is unchanged and no control-channel frame is
forwarded.  (The decode-as-PCMA fallback in `save_wav` matches on the
session codec, never on a packet's payload-type byte.) -/
theorem C8_unknown_payload_type_rejected (st : RecvState)
    (b0 b1 s1 s2 t1 t2 t3 t4 c1 c2 c3 c4 : Nat) (tl : List Nat)
    (h : ¬ (b1 &&& 0x7F = 0 ∨ b1 &&& 0x7F = 8)) :
    recvStep st (b0 :: b1 :: s1 :: s2 :: t1 :: t2 :: t3 :: t4 ::
      c1 :: c2 :: c3 :: c4 :: tl) = (st, []) := by
  push_neg at h
  simp only [recvStep, RTPPacket.unpack, PayloadType.ofNat?, if_neg h.1, if_neg h.2]

/-- Witness for C8 (amended) at a concrete datagram with payload-type 96. -/
theorem C8_unknown_payload_type_rejected_witness :
    recvStep {} [128, 96, 0, 0, 0, 0, 0, 0, 0, 0, 0, 0] = ({}, []) :=
  C8_unknown_payload_type_rejected {} 128 96 0 0 0 0 0 0 0 0 0 0 [] (by decide)

/-- C5 counterexample: after the malformed frame `CALL:abc` the receive
loop terminates, so a subsequent well-formed `HANGUP` frame on the same
connection is not parsed or acted on — although `HANGUP` parses fine when
it arrives before any malformed frame. -/
theorem C5_malformed_frame_kills_recv_loop :
    recvLoop ["CALL:abc", "HANGUP"] = [] ∧
    recvLoop ["HANGUP"] = [{ type := .HANGUP, content := none }] ∧
    recvLoop ["CALL:0903383638", "HANGUP"] =
      [{ type := .CALL, content := some "0903383638" },
       { type := .HANGUP, content := none }] := by
  refine ⟨rfl, rfl, rfl⟩

/-- C5 (amended): the receive loop enqueues each well-formed frame and
continues, but the first malformed frame raises out of the `for` loop: the
loop stops, nothing is enqueued for that frame, and no later frame on the
connection is processed (the handler then tears the connection down). -/
theorem C5_recv_loop_stops_at_first_error (f : String) (rest : List String) :
    (∀ c, parseWsMessage f = .ok c → recvLoop (f :: rest) = c :: recvLoop rest) ∧
    (∀ e, parseWsMessage f = .error e → recvLoop (f :: rest) = []) := by
  constructor <;> intro x h <;> simp [recvLoop, h]

/-- Witness for C5 (amended) at concrete frames. -/
theorem C5_recv_loop_stops_at_first_error_witness :
    recvLoop ["HANGUP", "HANGUP"] =
      { type := CommandType.HANGUP, content := none } :: recvLoop ["HANGUP"] ∧
    recvLoop ["CALL:abc", "HANGUP"] = [] :=
  ⟨(C5_recv_loop_stops_at_first_error "HANGUP" ["HANGUP"]).1
      { type := .HANGUP, content := none } rfl,
   (C5_recv_loop_stops_at_first_error "CALL:abc" ["HANGUP"]).2
      ("Invalid phone number format: abc") rfl⟩

lemma except_bind_ok {ε α β : Type} (a : α) (f : α → Except ε β) :
    (Except.ok a >>= f) = f a := rfl

lemma isEmptyMap {α β : Type} (g : α → β) (l : List α) :
    (l.map g).isEmpty = l.isEmpty := by cases l <;> rfl

lemma mapMediaLines (f : MediaDescription → Option (List String))
    (mds : List MediaDescription) :
    (mds.map (fun md => { md with attributes := f md })).map
        (fun md => ["m=" ++ md.media, "a=rtpmap:0 PCMA/8000"]) =
      mds.map (fun md => ["m=" ++ md.media, "a=rtpmap:0 PCMA/8000"]) := by
  induction mds with
  | nil => rfl
  | cons a l ih => simp only [List.map_cons, ih]

/-- The serialized SDP body never depends on the media attributes: the
`a=rtpmap:0 PCMA/8000` line is hardcoded. -/
lemma serializeSdp_setMediaAttrs (sdp : SDPMessage)
    (f : MediaDescription → Option (List String)) :
    serializeSdp (setMediaAttrs sdp f) = serializeSdp sdp := by
  unfold serializeSdp setMediaAttrs
  cases h : sdp.media_descriptions with
  | none => rfl
  | some mds =>
    simp only [Option.map_some', Option.getD_some, optListTruthy, isEmptyMap,
      mapMediaLines]

/-- C1 counterexample: for the spec's own S1 offer (`RTP/AVP 0 8 96`) the
code selects the **first** offered payload type 0 (PCMU), not the claimed
PCMA 8, and the 200 OK body carries `m=audio 31002 RTP/AVP 0` with the
hardcoded `a=rtpmap:0 PCMA/8000`; an offer proposing only payload type 96
(neither PCMA nor PCMU) is accepted with codec `opus` instead of being
rejected with 488. -/
theorem C1_first_payload_taken_no_preference :
    (RTPSessionParams.from_sdp offerS1).map (fun p => p.payload_type) = Except.ok 0 ∧
    (sessionHandleInvite "192.168.1.101" 1000000 offerS1).map (fun r => serializeSdp r.2) =
      Except.ok ("v=0\r\no=- 1000000 1000000 IN IP4 192.168.1.101\r\ns=-\r\n" ++
        "c=IN IP4 192.168.1.101\r\nt=0 0\r\nm=audio 31002 RTP/AVP 0\r\n" ++
        "a=rtpmap:0 PCMA/8000\r\na=sendrecv\r\n") ∧
    (RTPSessionParams.from_sdp offerPt96).map (fun p => (p.payload_type, p.codec)) =
      Except.ok (96, "opus") := by
  refine ⟨rfl, rfl, rfl⟩

/-- The parameters that `from_sdp` extracts from the S1 offer. -/
def paramsS1 : RTPSessionParams :=
  { remote_ip := "203.0.113.7", remote_port := 4000, payload_type := 0,
    codec := "PCMU", sample_rate := 8000 }

/-- The session state produced by a successful `handle_invite`. -/
def freshSessionWith (ip : String) (params : RTPSessionParams) : PySession :=
  { local_ip := ip, rtp_handle := true, params := some params,
    local_send_port := some 31000, local_recv_port := some 31002,
    rtp_port_allocator := { start_port := 31000, end_port := 31010,
                            next_port := 31004, allocated := [31000, 31002] } }

/-- C1 (amended): for every offer the parameter extraction accepts — with
no codec-support requirement — the answer mirrors the offer's **first**
payload type in its `m=` line and `rtpmap` attribute (no PCMA-over-PCMU
preference), the session gets ports 31000/31002, and the serialized body
ignores the answer's `rtpmap` attribute, always printing the hardcoded
`a=rtpmap:0 PCMA/8000`.  488 arises only from a duplicate Call-ID or a
`ValueError` during extraction, never from an unsupported codec. -/
theorem C1_answer_mirrors_first_payload (ip : String) (sid : Nat)
    (offer : SDPMessage) (params : RTPSessionParams)
    (hok : RTPSessionParams.from_sdp offer = .ok params) :
    sessionHandleInvite ip sid offer =
      .ok (freshSessionWith ip params, SDPBuilder.build_answer ip 31002 params sid) ∧
    (freshSessionWith ip params).local_send_port = some 31000 ∧
    (freshSessionWith ip params).local_recv_port = some 31002 ∧
    (SDPBuilder.build_answer ip 31002 params sid).media_descriptions =
      some [{ media := "audio 31002 RTP/AVP " ++ toString params.payload_type,
              attributes := some ["rtpmap:" ++ toString params.payload_type ++ " " ++
                                  params.codec ++ "/" ++ toString params.sample_rate] }] ∧
    (∀ f, serializeSdp (setMediaAttrs (SDPBuilder.build_answer ip 31002 params sid) f) =
        serializeSdp (SDPBuilder.build_answer ip 31002 params sid)) := by
  refine ⟨?_, rfl, rfl, rfl, fun f => serializeSdp_setMediaAttrs _ f⟩
  unfold sessionHandleInvite
  rw [hok, except_bind_ok]
  rfl

/-- Witness for C1 (amended) at the S1 offer. -/
theorem C1_answer_mirrors_first_payload_witness :
    sessionHandleInvite "192.168.1.101" 7 offerS1 =
      .ok (freshSessionWith "192.168.1.101" paramsS1,
           SDPBuilder.build_answer "192.168.1.101" 31002 paramsS1 7) ∧
    (freshSessionWith "192.168.1.101" paramsS1).local_send_port = some 31000 ∧
    (freshSessionWith "192.168.1.101" paramsS1).local_recv_port = some 31002 ∧
    (SDPBuilder.build_answer "192.168.1.101" 31002 paramsS1 7).media_descriptions =
      some [{ media := "audio 31002 RTP/AVP " ++ toString paramsS1.payload_type,
              attributes := some ["rtpmap:" ++ toString paramsS1.payload_type ++ " " ++
                                  paramsS1.codec ++ "/" ++ toString paramsS1.sample_rate] }] ∧
    (∀ f, serializeSdp (setMediaAttrs
          (SDPBuilder.build_answer "192.168.1.101" 31002 paramsS1 7) f) =
        serializeSdp (SDPBuilder.build_answer "192.168.1.101" 31002 paramsS1 7)) :=
  C1_answer_mirrors_first_payload "192.168.1.101" 7 offerS1 paramsS1 rfl

/-- C3 (amended): the disjointness invariant fails on the outbound side.
Placing an outbound call registers — on **any** starting state — a live
dialog whose local ports are both 31002 (drawn from its own fresh
allocator, with no socket bound), so any number of live outbound dialogs
hold the identical pair.  On the inbound side the pair is always
(31000, 31002) from the session's private allocator — whose allocated set
holds exactly those two ports — and a second concurrent inbound dialog is
prevented only by the OS: when port 31000 is already bound by a live
dialog, the RTP handler's bind raises `OSError`, answered as a 500, and
no session is registered. -/
theorem C3_port_pairs_not_disjoint (cfg : ServerCfg) (st : ServerState)
    (phone cid tag branch : String) (sid : Nat) (ip : String) (sid2 : Nat)
    (bound : List Nat) (offer : SDPMessage) (params : RTPSessionParams)
    (hok : RTPSessionParams.from_sdp offer = .ok params) :
    (handleCall cfg st phone cid tag branch sid).1.sessions =
      st.sessions ++
        [(cid, { local_ip := cfg.local_ip,
                 rtp_port_allocator := { start_port := 31000, end_port := 31010,
                                         next_port := 31004,
                                         allocated := [31000, 31002] },
                 local_send_port := some 31002,
                 local_recv_port := some 31002 })] ∧
    (31000 ∉ bound →
      sessionHandleInviteBind ip sid2 bound offer =
        .ok (freshSessionWith ip params,
             SDPBuilder.build_answer ip 31002 params sid2)) ∧
    (31000 ∈ bound →
      sessionHandleInviteBind ip sid2 bound offer =
        .error (.osError "[Errno 98] Address already in use")) := by
  refine ⟨rfl, fun h => ?_, fun h => ?_⟩
  · unfold sessionHandleInviteBind
    rw [hok, except_bind_ok]
    exact if_neg h
  · unfold sessionHandleInviteBind
    rw [hok, except_bind_ok]
    exact if_pos h

/-- Witness for C3 (amended): the registered outbound session, a first
inbound INVITE with no port bound, and a second one with 31000 held. -/
theorem C3_port_pairs_not_disjoint_witness :
    (handleCall cfg0 { sessions := [] } "0987654321" "out-1" "tag1" "br1"
        500).1.sessions = [] ++ [("out-1", outboundSession)] ∧
    sessionHandleInviteBind "192.168.1.101" 9 [] offerS1 =
      .ok (freshSessionWith "192.168.1.101" paramsS1,
           SDPBuilder.build_answer "192.168.1.101" 31002 paramsS1 9) ∧
    sessionHandleInviteBind "192.168.1.101" 9 [31000] offerS1 =
      .error (.osError "[Errno 98] Address already in use") :=
  ⟨(C3_port_pairs_not_disjoint cfg0 { sessions := [] } "0987654321" "out-1" "tag1"
      "br1" 500 "192.168.1.101" 9 [] offerS1 paramsS1 rfl).1,
   (C3_port_pairs_not_disjoint cfg0 { sessions := [] } "0987654321" "out-1" "tag1"
      "br1" 500 "192.168.1.101" 9 [] offerS1 paramsS1 rfl).2.1 (by decide),
   (C3_port_pairs_not_disjoint cfg0 { sessions := [] } "0987654321" "out-1" "tag1"
      "br1" 500 "192.168.1.101" 9 [31000] offerS1 paramsS1 rfl).2.2 (by decide)⟩

/-- C3 counterexample: two outbound calls (`CALL` commands) placed back to
back from the initial state leave **two live dialogs in the table holding
the identical local port pair** `(31002, 31002)` — `_handle_call` draws
(31000, 31002) from each session's own fresh allocator, assigns the
receive port to **both** local ports, and binds no socket, so nothing
stops the duplicates — refuting the pairwise-disjointness invariant. -/
theorem C3_two_outbound_dialogs_identical_pair :
    ((((handleCall cfg0
          (handleCall cfg0 { sessions := [] } "0987654321" "out-1" "tag1" "br1"
            500).1
          "0987654322" "out-2" "tag2" "br2" 501).1.sessions.lookup "out-1").map
        (fun s => (s.local_send_port, s.local_recv_port))) =
      some (some 31002, some 31002)) ∧
    ((((handleCall cfg0
          (handleCall cfg0 { sessions := [] } "0987654321" "out-1" "tag1" "br1"
            500).1
          "0987654322" "out-2" "tag2" "br2" 501).1.sessions.lookup "out-2").map
        (fun s => (s.local_send_port, s.local_recv_port))) =
      some (some 31002, some 31002)) := by
  refine ⟨rfl, rfl⟩

/-- C2: the retransmission bug evaluated at a failing input.  After the
outbound call `out-1` is placed and the peer's 200 OK is handled once (one
ACK on the wire), handling the **same retransmitted 200 OK** again sends a
**second** ACK and re-enters the media-arming path, because
`session.ack_sent` is never assigned `True` anywhere in the source: the
`getattr(session, "ack_sent", False)` guard is permanently `False`, as the
final conjunct shows. -/
theorem C2_retransmitted_200_sends_second_ack :
    countAcks (handleResponse cfg0
      ((handleCall cfg0 { sessions := [] } "0987654321" "out-1" "tag1" "br1" 500).1)
      resp200out ("192.168.1.170", 5060) "br2" "ts1").2 = 1 ∧
    countAcks (handleResponse cfg0
      ((handleResponse cfg0
        ((handleCall cfg0 { sessions := [] } "0987654321" "out-1" "tag1" "br1" 500).1)
        resp200out ("192.168.1.170", 5060) "br2" "ts1").1)
      resp200out ("192.168.1.170", 5060) "br3" "ts2").2 = 1 ∧
    (((handleResponse cfg0
        ((handleResponse cfg0
          ((handleCall cfg0 { sessions := [] } "0987654321" "out-1" "tag1" "br1" 500).1)
          resp200out ("192.168.1.170", 5060) "br2" "ts1").1)
        resp200out ("192.168.1.170", 5060) "br3" "ts2").1.sessions.lookup "out-1").map
      (fun s => s.ack_sent)) = some false := by
  refine ⟨rfl, rfl, rfl⟩

/-- C4 counterexample: a `486 Busy Here` for the freshly placed outbound
call `out-1` deletes the dialog (the table returns to its size before the
call) and sends a `603 Decline` to the peer, but the handler's entire
effect list shows that **no** `CALL_FAILED` event is emitted (evaluating
`CommandType.CALL_FAILED` raises `AttributeError` — the enum has no such
member) and **no** port release happens, although the deleted session's
allocator still held `{31000, 31002}`. -/
theorem C4_no_call_failed_event_no_port_release :
    ((handleCall cfg0 { sessions := [] } "0987654321" "out-1" "tag1" "br1" 500).1.sessions.map
      Prod.fst) = ["out-1"] ∧
    (((handleCall cfg0 { sessions := [] } "0987654321" "out-1" "tag1" "br1" 500).1.sessions.lookup
      "out-1").map (fun s => s.rtp_port_allocator.allocated)) = some [31000, 31002] ∧
    (handleResponse cfg0
      ((handleCall cfg0 { sessions := [] } "0987654321" "out-1" "tag1" "br1" 500).1)
      resp486 ("192.168.1.170", 5060) "br2" "ts1") =
      ({ sessions := [] },
       [.sendWire (buildResponse resp486.headers "603 Decline"),
        .pyError "AttributeError: CALL_FAILED"]) := by
  refine ⟨rfl, rfl, rfl⟩

/-- C4 (amended): for every 3xx–6xx final response whose Call-ID matches a
live dialog, the server sends a `603 Decline` built from the response's
headers to the peer and deletes the dialog — the table returns to its size
before the call was placed — but it does **not** release the dialog's port
pair (no release effect occurs; the `stop_and_save` call is commented
out), and no `CALL_FAILED` event is emitted: the handler aborts with
`AttributeError` because the `CommandType` enum has no `CALL_FAILED`
member. -/
theorem C4_error_response_deletes_dialog_without_release (cfg : ServerCfg)
    (st : ServerState) (resp : SIPResponse) (addr : String × Nat)
    (branch timestamp cid : String) (session : PySession)
    (hcid : resp.headers.call_id = some cid) (hne : cid ≠ "")
    (hlive : st.sessions.lookup cid = some session)
    (hcseq : optTruthy resp.headers.cseq = true)
    (hlo : 300 ≤ resp.status_line.status_code)
    (hhi : resp.status_line.status_code < 700) :
    handleResponse cfg st resp addr branch timestamp =
      ({ sessions := st.sessions.filter (fun p => p.1 ≠ cid) },
       [.sendWire (buildResponse resp.headers "603 Decline"),
        .pyError "AttributeError: CALL_FAILED"]) := by
  have h2 : ¬ (100 ≤ resp.status_line.status_code ∧ resp.status_line.status_code < 200) := by
    omega
  have h3 : ¬ resp.status_line.status_code = 200 := by omega
  have h1 : optTruthy (some cid) = true := by simp [optTruthy, hne]
  unfold handleResponse
  simp [hcid, h1, hlive, hcseq, h2, h3, hlo, hhi]

/-- Witness for C4 (amended) at the concrete 486 scenario. -/
theorem C4_error_response_deletes_dialog_without_release_witness :
    handleResponse cfg0
      ((handleCall cfg0 { sessions := [] } "0987654321" "out-1" "tag1" "br1" 500).1)
      resp486 ("192.168.1.170", 5060) "br2" "ts1" =
      ({ sessions :=
          ((handleCall cfg0 { sessions := [] } "0987654321" "out-1" "tag1" "br1"
            500).1).sessions.filter (fun p => p.1 ≠ "out-1") },
       [.sendWire (buildResponse resp486.headers "603 Decline"),
        .pyError "AttributeError: CALL_FAILED"]) :=
  C4_error_response_deletes_dialog_without_release cfg0 _ resp486
    ("192.168.1.170", 5060) "br2" "ts1" "out-1" outboundSession
    rfl (by decide) rfl rfl (by decide) (by decide)

/-- C10: a BYE whose Call-ID matches no live session is answered `200 OK`
(echoing the request's headers), no `BYE` event is emitted on the control
channel, and the server state — session table, port allocations, RTP
state — is left entirely unchanged. -/
theorem C10_bye_unknown_call_harmless (st : ServerState) (headers : SIPHeaders)
    (call_id timestamp : String)
    (h : st.sessions.lookup call_id = none) :
    handleBye st headers call_id timestamp =
      (st, [.sendWire (buildResponse headers "200 OK")]) := by
  unfold handleBye
  rw [h]

/-- Witness for C10 at a concrete state and BYE. -/
theorem C10_bye_unknown_call_harmless_witness :
    handleBye { sessions := [("call-1", freshSessionWith "192.168.1.101" paramsS1)] }
      hdrsB "nosuch-call" "20260101_000000" =
      ({ sessions := [("call-1", freshSessionWith "192.168.1.101" paramsS1)] },
       [.sendWire (buildResponse hdrsB "200 OK")]) :=
  C10_bye_unknown_call_harmless _ hdrsB "nosuch-call" "20260101_000000" rfl

end SIPRelay
